import Mathlib

/-!
Verification of the kart collision module (src/utils/KartCollision.js).

The module is embedded shallowly over exact rationals: every scalar that the
source computes with floating point is a rational number here, and every
comparison the source makes on a Euclidean length is expressed exactly over
the squares, so that the embedded control flow agrees with the ideal
real-number reading of the source.

External library primitives (the three.js vector, box and matrix operations,
and the three-mesh-bvh shapecast and segment-triangle closest-point routine)
are not part of the repository source; they are modelled from the
specification, as noted on each definition.
-/

/-- Embeds three.js Vector3: a 3D point or vector with rational components. -/
structure Vec3 where
  x : ℚ
  y : ℚ
  z : ℚ
deriving Repr

/-- Componentwise addition, three.js Vector3.add. -/
def Vec3.add (a b : Vec3) : Vec3 := ⟨a.x + b.x, a.y + b.y, a.z + b.z⟩

/-- Componentwise subtraction, three.js Vector3.sub. -/
def Vec3.sub (a b : Vec3) : Vec3 := ⟨a.x - b.x, a.y - b.y, a.z - b.z⟩

/-- Scalar multiple, three.js Vector3.multiplyScalar. -/
def Vec3.multiplyScalar (a : Vec3) (s : ℚ) : Vec3 := ⟨a.x * s, a.y * s, a.z * s⟩

/-- Adds the same scalar to every component, three.js Vector3.addScalar. -/
def Vec3.addScalar (a : Vec3) (s : ℚ) : Vec3 := ⟨a.x + s, a.y + s, a.z + s⟩

/-- Adds a scalar multiple of a vector, three.js Vector3.addScaledVector. -/
def Vec3.addScaledVector (a v : Vec3) (s : ℚ) : Vec3 :=
  ⟨a.x + v.x * s, a.y + v.y * s, a.z + v.z * s⟩

/-- Dot product, three.js Vector3.dot. -/
def Vec3.dot (a b : Vec3) : ℚ := a.x * b.x + a.y * b.y + a.z * b.z

/-- Squared Euclidean length, three.js Vector3.lengthSq. -/
def Vec3.lengthSq (a : Vec3) : ℚ := a.x * a.x + a.y * a.y + a.z * a.z

/-- Cross product, three.js Vector3.cross. -/
def Vec3.cross (a b : Vec3) : Vec3 :=
  ⟨a.y * b.z - a.z * b.y, a.z * b.x - a.x * b.z, a.x * b.y - a.y * b.x⟩

/-- Componentwise minimum, three.js Vector3.min. -/
def Vec3.minV (a b : Vec3) : Vec3 := ⟨min a.x b.x, min a.y b.y, min a.z b.z⟩

/-- Componentwise maximum, three.js Vector3.max. -/
def Vec3.maxV (a b : Vec3) : Vec3 := ⟨max a.x b.x, max a.y b.y, max a.z b.z⟩

/-- Embeds three.js Vector3.normalize, which divides by the length when it is
nonzero and by 1 otherwise. On the vectors this development evaluates it at,
the squared length is a perfect rational square, so Rat.sqrt returns the exact
Euclidean length. -/
def Vec3.normalize (a : Vec3) : Vec3 :=
  let len := Rat.sqrt a.lengthSq
  a.multiplyScalar (1 / (if len = 0 then 1 else len))

/-- Decides the comparison of a Euclidean distance with a bound exactly over
the rationals: sqrtLt d2 b is true exactly when the real number sqrt d2 is
strictly below b. The source compares a floating-point distance with the
bound; comparing the square avoids the irrational intermediate value. -/
def sqrtLt (d2 b : ℚ) : Bool := decide (0 < b ∧ d2 < b * b)

/-- Embeds three.js Line3: a segment with a start point and an end point.
The source field named end is a Lean keyword, hence endP. -/
structure Line3 where
  start : Vec3
  endP : Vec3
deriving Repr

/-- Embeds three.js Box3: an axis-aligned box given by min and max corners. -/
structure Box3 where
  min : Vec3
  max : Vec3
deriving Repr

/-- Embeds three.js Box3.intersectsBox: inclusive interval overlap on all
three axes, written as the source writes it (a disjunction of strict
separations, negated). -/
def Box3.intersectsBox (self box : Box3) : Bool :=
  if box.max.x < self.min.x ∨ box.min.x > self.max.x ∨
     box.max.y < self.min.y ∨ box.min.y > self.max.y ∨
     box.max.z < self.min.z ∨ box.min.z > self.max.z
  then false else true

/-- Embeds three.js Box3.setFromCenterAndSize: the box centered at center
whose extent on each axis is the corresponding component of size. -/
def Box3.setFromCenterAndSize (center size : Vec3) : Box3 :=
  ⟨center.sub (size.multiplyScalar (1/2)), center.add (size.multiplyScalar (1/2))⟩

/-- Embeds three.js Matrix4 restricted to the affine transforms that occur as
mesh world matrices (bottom row 0 0 0 1): a 3x3 linear part in row-major
order plus a translation column. The perspective division of the source is
the identity on such matrices. -/
structure Mat4 where
  m11 : ℚ
  m12 : ℚ
  m13 : ℚ
  m21 : ℚ
  m22 : ℚ
  m23 : ℚ
  m31 : ℚ
  m32 : ℚ
  m33 : ℚ
  tx : ℚ
  ty : ℚ
  tz : ℚ
deriving Repr

/-- Identity transform, the world matrix of an unpositioned collider mesh. -/
def Mat4.identity : Mat4 := ⟨1, 0, 0, 0, 1, 0, 0, 0, 1, 0, 0, 0⟩

/-- Embeds three.js Matrix4.invert on affine matrices: the inverse of the
linear part by the adjugate formula and the corresponding translation. As in
the source, a singular matrix inverts to the all-zero matrix. -/
def Mat4.invert (M : Mat4) : Mat4 :=
  let det := M.m11 * (M.m22 * M.m33 - M.m23 * M.m32)
           - M.m12 * (M.m21 * M.m33 - M.m23 * M.m31)
           + M.m13 * (M.m21 * M.m32 - M.m22 * M.m31)
  if det = 0 then ⟨0, 0, 0, 0, 0, 0, 0, 0, 0, 0, 0, 0⟩ else
  let i11 := (M.m22 * M.m33 - M.m23 * M.m32) / det
  let i12 := (M.m13 * M.m32 - M.m12 * M.m33) / det
  let i13 := (M.m12 * M.m23 - M.m13 * M.m22) / det
  let i21 := (M.m23 * M.m31 - M.m21 * M.m33) / det
  let i22 := (M.m11 * M.m33 - M.m13 * M.m31) / det
  let i23 := (M.m13 * M.m21 - M.m11 * M.m23) / det
  let i31 := (M.m21 * M.m32 - M.m22 * M.m31) / det
  let i32 := (M.m12 * M.m31 - M.m11 * M.m32) / det
  let i33 := (M.m11 * M.m22 - M.m12 * M.m21) / det
  ⟨i11, i12, i13, i21, i22, i23, i31, i32, i33,
   -(i11 * M.tx + i12 * M.ty + i13 * M.tz),
   -(i21 * M.tx + i22 * M.ty + i23 * M.tz),
   -(i31 * M.tx + i32 * M.ty + i33 * M.tz)⟩

/-- Embeds three.js Vector3.applyMatrix4 on affine matrices: linear part
applied to the vector, plus the translation. -/
def Vec3.applyMatrix4 (v : Vec3) (m : Mat4) : Vec3 :=
  ⟨m.m11 * v.x + m.m12 * v.y + m.m13 * v.z + m.tx,
   m.m21 * v.x + m.m22 * v.y + m.m23 * v.z + m.ty,
   m.m31 * v.x + m.m32 * v.y + m.m33 * v.z + m.tz⟩

/-- Result of the closest-point query between a triangle and a segment: the
minimum distance, the closest point on the triangle, and the closest point on
the segment. -/
structure ClosestResult where
  distance : ℚ
  triPoint : Vec3
  capsulePoint : Vec3
deriving Repr

/-- Modelled from the spec (section 4.2 and 4.3): a triangle of the merged
soup as the shapecast presents it to the visitor. The vertices a, b, c drive
the midpoint and normal computations of the source. The field
closestPointToSegment models the three-mesh-bvh routine of the same name, an
external-library primitive the spec specifies only by its signature (minimum
distance between the triangle and a segment, with a witness point on each);
it is carried as data so that concrete colliders can supply the exact
geometric distance function of their triangles. -/
structure ExtendedTriangle where
  a : Vec3
  b : Vec3
  c : Vec3
  closestPointToSegment : Line3 → ClosestResult

/-- Embeds three.js Triangle.getNormal: the normalized cross product of two
edge vectors, or the zero vector when the triangle is degenerate. -/
def ExtendedTriangle.getNormal (t : ExtendedTriangle) : Vec3 :=
  let target := (t.c.sub t.b).cross (t.a.sub t.b)
  if 0 < target.lengthSq then target.multiplyScalar (1 / Rat.sqrt target.lengthSq)
  else ⟨0, 0, 0⟩

/-- Embeds three.js Triangle.getMidpoint: the centroid of the vertices. -/
def ExtendedTriangle.getMidpoint (t : ExtendedTriangle) : Vec3 :=
  ((t.a.add t.b).add t.c).multiplyScalar (1/3)

/-- Modelled from the spec (section 4.2): a leaf entry of the bounding volume
hierarchy, a triangle together with the axis-aligned bounds of its leaf. -/
structure TriangleData where
  bounds : Box3
  tri : ExtendedTriangle

/-- Modelled from the spec (section 4.2): the generic shapecast traversal of
the three-mesh-bvh BVH. It visits, in traversal order, every leaf triangle
whose bounds pass the intersectsBounds predicate of the source (an
intersection test against the query box), invoking the triangle callback for
each; the callback threads external mutable state, here made explicit as a
fold state. -/
def shapecast {σ : Type} (tree : List TriangleData) (queryBox : Box3)
    (visit : σ → ExtendedTriangle → σ) (init : σ) : σ :=
  tree.foldl
    (fun st td => if td.bounds.intersectsBox queryBox then visit st td.tri else st)
    init

/-- Embeds the geometry of a collider mesh: the merged triangle soup with its
BVH, absent when no bounds tree was attached. -/
structure BufferGeometry where
  boundsTree : Option (List TriangleData)

/-- Embeds the collider mesh: geometry, world transform, visibility flag. -/
structure Mesh where
  geometry : BufferGeometry
  matrixWorld : Mat4
  visible : Bool

/-- Embeds the collision settings record of the source. -/
structure KartColliderSettings where
  radius : ℚ
  height : ℚ
  pushOutMultiplier : ℚ
deriving Repr

/-- Embeds the default kartColliderSettings of the source: radius 0.8,
height 1.0, pushOutMultiplier 1.0. -/
def kartColliderSettings : KartColliderSettings := ⟨4/5, 1, 1⟩

/-- Result record of checkCollision. -/
structure CheckResult where
  position : Vec3
  collided : Bool
deriving Repr

/-- Embeds the intersectsTriangle callback of checkCollision (source lines
125 to 146): the closest-point query between the candidate triangle and the
in-flight capsule segment; on a strict penetration the segment is pushed out
along the normalized vector from the triangle closest point to the segment
closest point by depth times the push-out multiplier, and the collided flag
is set. -/
def capsuleStep (radius pushOutMultiplier : ℚ) (st : Line3 × Bool)
    (tri : ExtendedTriangle) : Line3 × Bool :=
  let res := tri.closestPointToSegment st.1
  if res.distance < radius then
    let depth := radius - res.distance
    let direction := (res.capsulePoint.sub res.triPoint).normalize
    (⟨st.1.start.addScaledVector direction (depth * pushOutMultiplier),
      st.1.endP.addScaledVector direction (depth * pushOutMultiplier)⟩, true)
  else st

/-- Embeds source lines 98 to 112: the capsule segment from (0, radius, 0) to
(0, height, 0), translated to the desired position and mapped into collider
local space by the inverted world matrix. -/
def capsuleSegmentAt (desiredPosition : Vec3) (settings : KartColliderSettings)
    (tempMat : Mat4) : Line3 :=
  ⟨(Vec3.add ⟨0, settings.radius, 0⟩ desiredPosition).applyMatrix4 tempMat,
   (Vec3.add ⟨0, settings.height, 0⟩ desiredPosition).applyMatrix4 tempMat⟩

/-- Embeds source lines 115 to 119: the broad-phase box of the capsule. The
empty box expanded by the two segment endpoints is their componentwise
min and max box, then grown by the radius on all sides. -/
def capsuleBox (seg : Line3) (radius : ℚ) : Box3 :=
  ⟨(seg.start.minV seg.endP).addScalar (-radius),
   (seg.start.maxV seg.endP).addScalar radius⟩

/-- Embeds checkCollision (source lines 81 to 158). The currentPosition
argument is accepted and, as in the source, never read. -/
def checkCollision (currentPosition desiredPosition : Vec3)
    (collider : Option Mesh)
    (settings : KartColliderSettings := kartColliderSettings) : CheckResult :=
  match collider with
  | none => { position := desiredPosition, collided := false }
  | some col =>
    match col.geometry.boundsTree with
    | none => { position := desiredPosition, collided := false }
    | some tree =>
      let tempMat := col.matrixWorld.invert
      let tempSegment := capsuleSegmentAt desiredPosition settings tempMat
      let tempBox := capsuleBox tempSegment settings.radius
      let out := shapecast tree tempBox
        (capsuleStep settings.radius settings.pushOutMultiplier) (tempSegment, false)
      if out.2 then
        let newPosition := out.1.start.applyMatrix4 col.matrixWorld
        { position := ⟨newPosition.x, desiredPosition.y, newPosition.z⟩, collided := true }
      else
        { position := desiredPosition, collided := false }

/-- Result record of checkSimpleCollision. -/
structure SimpleResult where
  position : Vec3
  velocity : Vec3
  collided : Bool
deriving Repr

/-- Embeds the intersectsTriangle callback of checkSimpleCollision (source
lines 200 to 217): when the triangle midpoint is within twice the radius of
the local tentative position, the in-flight velocity is corrected along the
world-transformed normalized triangle normal; the scalar is computed, as in
the source argument order, against that same transformed normal. -/
def simpleStep (matrixWorld : Mat4) (radius : ℚ) (localPos : Vec3)
    (st : Vec3 × Bool) (tri : ExtendedTriangle) : Vec3 × Bool :=
  let normal := tri.getNormal
  let triCenter := tri.getMidpoint
  if sqrtLt (localPos.sub triCenter).lengthSq (radius * 2) then
    let n := (normal.applyMatrix4 matrixWorld).normalize
    (st.1.addScaledVector n (-(st.1.dot n) * (11/10)), true)
  else st

/-- Embeds checkSimpleCollision (source lines 170 to 222). -/
def checkSimpleCollision (position velocity : Vec3) (collider : Option Mesh)
    (radius : ℚ := 1) : SimpleResult :=
  match collider with
  | none =>
    { position := position.add velocity, velocity := velocity, collided := false }
  | some col =>
    match col.geometry.boundsTree with
    | none =>
      { position := position.add velocity, velocity := velocity, collided := false }
    | some tree =>
      let newPosition := position.add velocity
      let tempMat := col.matrixWorld.invert
      let localPos := newPosition.applyMatrix4 tempMat
      let tempBox := Box3.setFromCenterAndSize localPos ⟨radius * 2, radius * 2, radius * 2⟩
      let out := shapecast tree tempBox
        (simpleStep col.matrixWorld radius localPos) (velocity, false)
      { position := position.add out.1, velocity := out.1, collided := out.2 }

/-- Decides whether the second character list occurs at the head of the
first. Helper for the JavaScript String.prototype.includes embedding. -/
def strLeads : List Char → List Char → Bool
  | [], _ => true
  | _ :: _, [] => false
  | c :: cs, h :: hs => c == h && strLeads cs hs

/-- Decides whether sub occurs contiguously inside hay. -/
def strHas (hay sub : List Char) : Bool :=
  match hay with
  | [] => sub.isEmpty
  | _ :: t => strLeads sub hay || strHas t sub

/-- Embeds the JavaScript expression s.includes(sub): substring containment. -/
def jsIncludes (s sub : String) : Bool := strHas s.data sub.data

/-- Embeds the JavaScript expression s.toLowerCase() on the ASCII names the
module filters by: every character mapped to lower case. -/
def jsToLowerCase (s : String) : String := ⟨s.data.map Char.toLower⟩

/-- Modelled from the spec (section 6): a scene object as the construction
paths consume it, exposing the name string that drives filtering, the isMesh
marker of the scene-graph traversal, and the world-space triangle soup (with
leaf bounds) that the geometry merger extracts from the mesh. -/
structure Object3D where
  name : String
  isMesh : Bool
  triangles : List TriangleData

/-- Embeds the filtering of the traverse callback of buildCollider (source
lines 32 to 50), as the sequence of early returns of the source: non-meshes
are skipped, then the case-insensitive substring exclusion list, then (when
non-empty) the case-insensitive substring inclusion list. -/
def meshFilter (includeNames excludeNames : List String) (child : Object3D) : Bool :=
  if !child.isMesh then false
  else if excludeNames.any
      (fun name => jsIncludes (jsToLowerCase child.name) (jsToLowerCase name)) then false
  else if includeNames.length > 0 &&
      !(includeNames.any
        (fun name => jsIncludes (jsToLowerCase child.name) (jsToLowerCase name))) then false
  else true

/-- Modelled from the spec (sections 4.1 and 4.2): the merged collider built
from a mesh list, as StaticGeometryGenerator plus MeshBVH produce it — the
world-space triangle soups of the meshes flattened in order into one
geometry, the BVH attached to it, the collider mesh made invisible with an
identity world transform. -/
def colliderFromMeshList (meshes : List Object3D) : Mesh :=
  { geometry := { boundsTree := some (meshes.map Object3D.triangles).flatten },
    matrixWorld := Mat4.identity,
    visible := false }

/-- Embeds buildCollider (source lines 29 to 69): filter the traversed scene
children, warn and return null on an empty result, otherwise build the merged
BVH collider. The console output is returned as an explicit message list. -/
def buildCollider (group : List Object3D) (includeNames : List String := [])
    (excludeNames : List String := ["ground"]) : Option Mesh × List String :=
  let meshes := group.filter (meshFilter includeNames excludeNames)
  if meshes.length = 0 then
    (none, ["KartCollision: No meshes found for collision"])
  else
    (some (colliderFromMeshList meshes),
     ["KartCollision: Built collider from " ++ toString meshes.length ++ " meshes"])

/-- Embeds buildColliderFromMeshes (source lines 268 to 285): a missing or
empty mesh list warns and returns null; otherwise the merged BVH collider is
built from the list with no filtering. -/
def buildColliderFromMeshes (meshes : Option (List Object3D)) : Option Mesh × List String :=
  match meshes with
  | none => (none, ["KartCollision: No meshes provided"])
  | some ms =>
    if ms.length = 0 then
      (none, ["KartCollision: No meshes provided"])
    else
      (some (colliderFromMeshList ms),
       ["KartCollision: Built collider from " ++ toString ms.length ++ " meshes"])

/-- Closest point between a segment and the vertical plane x = x0, exactly:
zero at a crossing, otherwise realized at the nearer endpoint (the start on a
tie). For a segment whose projection onto the plane falls inside a triangle
contained in that plane, this is exactly the segment-triangle closest-point
result, so it is the exact closestPointToSegment function of the large wall
triangles defined below on every segment this development queries them at. -/
def planeClosestX (x0 : ℚ) (seg : Line3) : ClosestResult :=
  let ds := seg.start.x - x0
  let de := seg.endP.x - x0
  if ds * de < 0 then
    let t := ds / (ds - de)
    let p := seg.start.addScaledVector (seg.endP.sub seg.start) t
    ⟨0, ⟨x0, p.y, p.z⟩, p⟩
  else if |ds| ≤ |de| then
    ⟨|ds|, ⟨x0, seg.start.y, seg.start.z⟩, seg.start⟩
  else
    ⟨|de|, ⟨x0, seg.endP.y, seg.endP.z⟩, seg.endP⟩

/-- Concrete wall: a large triangle lying in the vertical plane x = x0,
spanning y and z from -100 to 100, whose exact closest-point function on the
segments queried near the origin is planeClosestX x0. -/
def wallTriAt (x0 : ℚ) : ExtendedTriangle :=
  { a := ⟨x0, -100, -100⟩
    b := ⟨x0, -100, 100⟩
    c := ⟨x0, 100, 0⟩
    closestPointToSegment := planeClosestX x0 }

/-- Leaf entry for a wall triangle: the tight bounds of the triangle of
wallTriAt. -/
def wallTriData (x0 : ℚ) : TriangleData :=
  ⟨⟨⟨x0, -100, -100⟩, ⟨x0, 100, 100⟩⟩, wallTriAt x0⟩

/-- Collider holding a single plane wall at x = x0, identity world
transform. -/
def wallCollider (x0 : ℚ) : Mesh :=
  { geometry := { boundsTree := some [wallTriData x0] }
    matrixWorld := Mat4.identity
    visible := false }

/-- Collider holding two facing plane walls at x = 0 and x = 6/5: a corridor
of width 6/5, narrower than twice the default capsule radius 4/5. -/
def corridorCollider : Mesh :=
  { geometry := { boundsTree := some [wallTriData 0, wallTriData (6/5)] }
    matrixWorld := Mat4.identity
    visible := false }

/-- Concrete triangle in the plane x = 2 with outward normal (-1, 0, 0):
getNormal computes cross ((0,0,2), (0,2,0)) = (-4,0,0), normalized. -/
def simpleWallTri : ExtendedTriangle :=
  { a := ⟨2, 2, 0⟩
    b := ⟨2, 0, 0⟩
    c := ⟨2, 0, 2⟩
    closestPointToSegment := planeClosestX 2 }

/-- Collider holding the single x = 2 wall triangle for the simple resolver
scenario, identity world transform. -/
def simpleWallCollider : Mesh :=
  { geometry := { boundsTree := some [⟨⟨⟨2, 0, 0⟩, ⟨2, 2, 2⟩⟩, simpleWallTri⟩] }
    matrixWorld := Mat4.identity
    visible := false }

/-- Collider whose single triangle sits far from the origin, so that the
broad-phase box of a capsule near the origin misses its bounds. -/
def farCollider : Mesh :=
  { geometry := { boundsTree := some [⟨⟨⟨10, 0, 0⟩, ⟨11, 1, 1⟩⟩, wallTriAt 10⟩] }
    matrixWorld := Mat4.identity
    visible := false }

theorem sqrt_of_sq (b : ℚ) (hb : 0 ≤ b) : Rat.sqrt (b * b) = b := by
  rw [Rat.sqrt_eq, abs_of_nonneg hb]

theorem sqrt_nine_over_25 : Rat.sqrt (9/25) = 3/5 := by
  rw [show (9/25 : ℚ) = (3/5) * (3/5) from by norm_num]
  exact sqrt_of_sq _ (by norm_num)

theorem sqrt_four_over_25 : Rat.sqrt (4/25) = 2/5 := by
  rw [show (4/25 : ℚ) = (2/5) * (2/5) from by norm_num]
  exact sqrt_of_sq _ (by norm_num)

theorem sqrt_one : Rat.sqrt 1 = 1 := by
  have h := sqrt_of_sq (1 : ℚ) (by norm_num)
  simpa using h

theorem sqrt_sixteen : Rat.sqrt 16 = 4 := by
  rw [show (16 : ℚ) = 4 * 4 from by norm_num]
  exact sqrt_of_sq _ (by norm_num)

theorem Mat4.invert_identity : Mat4.identity.invert = Mat4.identity := by
  norm_num [Mat4.invert, Mat4.identity]

theorem Vec3.applyMatrix4_identity (v : Vec3) : v.applyMatrix4 Mat4.identity = v := by
  cases v
  simp [Vec3.applyMatrix4, Mat4.identity]

/-- A shapecast over a tree none of whose leaf bounds meet the query box
returns its initial state. -/
theorem shapecast_no_hit {σ : Type} (tree : List TriangleData) (box : Box3)
    (visit : σ → ExtendedTriangle → σ) (init : σ)
    (h : ∀ td ∈ tree, td.bounds.intersectsBox box = false) :
    shapecast tree box visit init = init := by
  induction tree with
  | nil => rfl
  | cons td rest ih =>
    have hhd := h td (List.mem_cons_self td rest)
    have htl : ∀ td2 ∈ rest, td2.bounds.intersectsBox box = false := by
      intro td2 hm
      exact h td2 (List.mem_cons_of_mem td hm)
    simp [shapecast, List.foldl_cons, hhd]
    exact ih htl

/-- A shapecast is the left fold of the visitor over exactly the candidate
triangles, in traversal order: each visit sees the state produced by all
earlier-visited triangles. -/
theorem shapecast_eq_foldl_filter {σ : Type} (tree : List TriangleData) (box : Box3)
    (visit : σ → ExtendedTriangle → σ) (init : σ) :
    shapecast tree box visit init =
      (tree.filter (fun td => td.bounds.intersectsBox box)).foldl
        (fun st td => visit st td.tri) init := by
  induction tree generalizing init with
  | nil => rfl
  | cons td rest ih =>
    by_cases hb : td.bounds.intersectsBox box = true
    · simp [shapecast, List.foldl_cons, List.filter_cons, hb] at ih ⊢
      exact ih _
    · simp only [Bool.not_eq_true] at hb
      simp [shapecast, List.foldl_cons, List.filter_cons, hb] at ih ⊢
      exact ih _

set_option maxHeartbeats 1000000

/-- C1: for every candidate triangle the shapecast of checkCollision visits,
a collision is recorded exactly when the closest distance between the
triangle and the capsule segment is strictly below the radius (equality is
non-colliding); when recorded, the segment endpoints are both translated
along the normalized vector from the triangle closest point to the segment
closest point by (radius - distance) times the push-out multiplier; and the
traversal is the sequential fold of this step over the candidate triangles,
so each later-visited triangle sees the segment as mutated by the earlier
ones. -/
theorem capsuleStep_records_iff (radius mult : ℚ) (seg : Line3) (flag : Bool)
    (tri : ExtendedTriangle) :
    ((tri.closestPointToSegment seg).distance < radius →
      capsuleStep radius mult (seg, flag) tri =
        (⟨seg.start.addScaledVector
            (((tri.closestPointToSegment seg).capsulePoint.sub
                (tri.closestPointToSegment seg).triPoint).normalize)
            ((radius - (tri.closestPointToSegment seg).distance) * mult),
          seg.endP.addScaledVector
            (((tri.closestPointToSegment seg).capsulePoint.sub
                (tri.closestPointToSegment seg).triPoint).normalize)
            ((radius - (tri.closestPointToSegment seg).distance) * mult)⟩, true)) ∧
    (radius ≤ (tri.closestPointToSegment seg).distance →
      capsuleStep radius mult (seg, flag) tri = (seg, flag)) ∧
    (∀ (tree : List TriangleData) (box : Box3) (init : Line3 × Bool),
      shapecast tree box (capsuleStep radius mult) init =
        (tree.filter (fun td => td.bounds.intersectsBox box)).foldl
          (fun st td => capsuleStep radius mult st td.tri) init) := by
  refine ⟨fun h => ?_, fun h => ?_, fun tree box init => shapecast_eq_foldl_filter tree box _ init⟩
  · simp [capsuleStep, h]
  · simp [capsuleStep, not_lt.2 h]

/-- Witness for C1 at a concrete input: a capsule segment at x = 3/5 against
the plane wall at x = 0 with radius 4/5 penetrates by 1/5 and both endpoints
are pushed to x = 4/5. -/
theorem capsuleStep_records_iff_witness :
    capsuleStep (4/5) 1 (⟨⟨3/5, 4/5, 0⟩, ⟨3/5, 1, 0⟩⟩, false) (wallTriAt 0) =
      (⟨⟨4/5, 4/5, 0⟩, ⟨4/5, 1, 0⟩⟩, true) := by
  have h := (capsuleStep_records_iff (4/5) 1 ⟨⟨3/5, 4/5, 0⟩, ⟨3/5, 1, 0⟩⟩ false (wallTriAt 0)).1
  have hd : ((wallTriAt 0).closestPointToSegment ⟨⟨3/5, 4/5, 0⟩, ⟨3/5, 1, 0⟩⟩).distance < 4/5 := by
    norm_num [wallTriAt, planeClosestX, abs_of_nonneg]
  rw [h hd]
  norm_num [wallTriAt, planeClosestX, Vec3.addScaledVector, Vec3.sub, Vec3.normalize,
    Vec3.lengthSq, Vec3.multiplyScalar, abs_of_nonneg, sqrt_nine_over_25]

/-- C2: the returned position of checkCollision always carries the y
component of the desired position, whatever the collider, settings or
collision outcome; only x and z are ever overwritten. -/
theorem checkCollision_preserves_desired_y (cur des : Vec3) (col : Option Mesh)
    (s : KartColliderSettings) :
    (checkCollision cur des col s).position.y = des.y := by
  rcases col with _ | m
  · rfl
  · rcases htree : m.geometry.boundsTree with _ | tree
    · simp [checkCollision, htree]
    · simp only [checkCollision, htree]
      split
      · rfl
      · rfl

/-- C5: with a null collider, or a collider whose geometry carries no bounds
tree, checkCollision returns the desired position unchanged and
checkSimpleCollision returns position plus velocity with the velocity
unchanged, in both cases with collided false. -/
theorem resolvers_absent_collider_passthrough (cur des pos vel : Vec3)
    (s : KartColliderSettings) (r : ℚ) (M : Mat4) (vis : Bool) :
    checkCollision cur des none s = { position := des, collided := false } ∧
    checkCollision cur des
        (some { geometry := { boundsTree := none }, matrixWorld := M, visible := vis }) s =
      { position := des, collided := false } ∧
    checkSimpleCollision pos vel none r =
      { position := pos.add vel, velocity := vel, collided := false } ∧
    checkSimpleCollision pos vel
        (some { geometry := { boundsTree := none }, matrixWorld := M, visible := vis }) r =
      { position := pos.add vel, velocity := vel, collided := false } :=
  ⟨rfl, rfl, rfl, rfl⟩

/-- C10: a missing mesh list at the public interface of
buildColliderFromMeshes degrades exactly like an empty one: null collider
plus the diagnostic warning. -/
theorem buildColliderFromMeshes_missing_list :
    buildColliderFromMeshes none = (none, ["KartCollision: No meshes provided"]) := rfl

/-- C6: when filtering leaves no meshes, buildCollider returns the
absent-collider value together with its diagnostic warning, and
buildColliderFromMeshes on an empty list fails the same way — neither path
crashes or produces an empty-but-valid collider. -/
theorem buildCollider_empty_yields_none (group : List Object3D) (inc exc : List String) :
    (group.filter (meshFilter inc exc) = [] →
      buildCollider group inc exc =
        (none, ["KartCollision: No meshes found for collision"])) ∧
    buildColliderFromMeshes (some []) = (none, ["KartCollision: No meshes provided"]) := by
  constructor
  · intro h
    simp [buildCollider, h]
  · rfl

/-- Concrete scene containing one mesh whose name the default exclude list
rejects case-insensitively. -/
def groundOnlyGroup : List Object3D := [⟨"Ground", true, []⟩]

/-- Witness for C6: a scene whose only mesh is named Ground filters to
nothing under the default exclude list, and construction returns the absent
collider with the warning. -/
theorem buildCollider_empty_yields_none_witness :
    buildCollider groundOnlyGroup =
      (none, ["KartCollision: No meshes found for collision"]) := by
  have h := (buildCollider_empty_yields_none groundOnlyGroup [] ["ground"]).1
  have hf : meshFilter [] ["ground"] ⟨"Ground", true, []⟩ = false := by decide
  exact h (by simp [groundOnlyGroup, List.filter_cons, hf])

/-- C7: whenever checkCollision records no collision its output position is
exactly the desired position; in particular, when the broad-phase capsule box
meets no triangle bounds of the tree, the call returns the desired position
with collided false. -/
theorem checkCollision_no_hit_is_identity (cur des : Vec3) (col : Option Mesh)
    (s : KartColliderSettings) :
    ((checkCollision cur des col s).collided = false →
      (checkCollision cur des col s).position = des) ∧
    (∀ (m : Mesh) (tree : List TriangleData),
      m.geometry.boundsTree = some tree →
      (∀ td ∈ tree, td.bounds.intersectsBox
        (capsuleBox (capsuleSegmentAt des s m.matrixWorld.invert) s.radius) = false) →
      checkCollision cur des (some m) s = { position := des, collided := false }) := by
  constructor
  · rcases col with _ | m
    · intro _; rfl
    · rcases htree : m.geometry.boundsTree with _ | tree
      · intro _
        simp [checkCollision, htree]
      · simp only [checkCollision, htree]
        split
        · intro h
          exact absurd h (by simp)
        · intro _; rfl
  · intro m tree htree hmiss
    simp [checkCollision, htree, shapecast_no_hit tree _ _ _ hmiss]

/-- Witness for C7: a capsule at the origin against a collider whose only
triangle bounds sit at x from 10 to 11 reports no collision and returns the
desired position unchanged. -/
theorem checkCollision_no_hit_is_identity_witness :
    checkCollision ⟨0, 0, 0⟩ ⟨0, 0, 0⟩ (some farCollider) kartColliderSettings =
      { position := ⟨0, 0, 0⟩, collided := false } := by
  have h := (checkCollision_no_hit_is_identity ⟨0, 0, 0⟩ ⟨0, 0, 0⟩ (some farCollider)
    kartColliderSettings).2
  refine h farCollider _ rfl ?_
  intro td htd
  have : td = ⟨⟨⟨10, 0, 0⟩, ⟨11, 1, 1⟩⟩, wallTriAt 10⟩ := by
    simpa [farCollider] using htd
  subst this
  norm_num [Box3.intersectsBox, capsuleBox, capsuleSegmentAt, kartColliderSettings,
    Mat4.invert_identity, Vec3.applyMatrix4_identity, farCollider, Vec3.add,
    Vec3.minV, Vec3.maxV, Vec3.addScalar]

/-- Boolean normal form of the buildCollider mesh filter: kept means mesh,
no exclude-name occurs in the lowercased name, and either the include list is
empty or some include-name occurs in the lowercased name. -/
theorem meshFilter_eq (inc exc : List String) (child : Object3D) :
    meshFilter inc exc child =
      (child.isMesh &&
       !(exc.any fun name => jsIncludes (jsToLowerCase child.name) (jsToLowerCase name)) &&
       (decide (inc.length = 0) ||
        (inc.any fun name => jsIncludes (jsToLowerCase child.name) (jsToLowerCase name)))) := by
  cases him : child.isMesh <;>
    cases hE : (exc.any fun name => jsIncludes (jsToLowerCase child.name) (jsToLowerCase name)) <;>
      cases hI : (inc.any fun name => jsIncludes (jsToLowerCase child.name) (jsToLowerCase name)) <;>
        rcases inc with _ | ⟨i, irest⟩ <;>
          simp_all [meshFilter]

/-- C8: a scene child is kept by the buildCollider filter exactly when it is
a mesh, its name case-insensitively contains no exclude entry, and, when the
include list is non-empty, contains some include entry; any matching exclude
entry forces rejection (exclude wins over include); under the default
exclude list any name containing ground in any letter case is rejected; and
buildColliderFromMeshes builds from its whole list with no filtering. -/
theorem meshFilter_keeps_iff (inc exc : List String) (child : Object3D) :
    (meshFilter inc exc child = true ↔
      (child.isMesh = true ∧
        (∀ e ∈ exc, jsIncludes (jsToLowerCase child.name) (jsToLowerCase e) = false) ∧
        (inc = [] ∨ ∃ i ∈ inc, jsIncludes (jsToLowerCase child.name) (jsToLowerCase i) = true))) ∧
    ((∃ e ∈ exc, jsIncludes (jsToLowerCase child.name) (jsToLowerCase e) = true) →
      meshFilter inc exc child = false) ∧
    (jsIncludes (jsToLowerCase child.name) (jsToLowerCase "ground") = true →
      meshFilter inc ["ground"] child = false) ∧
    (∀ ms : List Object3D, ¬(ms.length = 0) →
      buildColliderFromMeshes (some ms) =
        (some (colliderFromMeshList ms),
         ["KartCollision: Built collider from " ++ toString ms.length ++ " meshes"])) := by
  refine ⟨?_, ?_, ?_, ?_⟩
  · rw [meshFilter_eq]
    simp [List.any_eq_true, List.any_eq_false, List.length_eq_zero, and_assoc]
  · intro hex
    rw [meshFilter_eq]
    obtain ⟨e, he, hpe⟩ := hex
    have hE : (exc.any fun name => jsIncludes (jsToLowerCase child.name) (jsToLowerCase name)) = true :=
      List.any_eq_true.2 ⟨e, he, hpe⟩
    simp [hE]
  · intro hg
    rw [meshFilter_eq]
    have hE : ((["ground"] : List String).any fun name =>
        jsIncludes (jsToLowerCase child.name) (jsToLowerCase name)) = true :=
      List.any_eq_true.2 ⟨"ground", by simp, hg⟩
    simp [hE]
  · intro ms h
    simp [buildColliderFromMeshes, h]

/-- Witness for C8: a mesh named with GROUND in capitals is rejected by the
default exclude list. -/
theorem meshFilter_keeps_iff_witness :
    meshFilter [] ["ground"] ⟨"The GROUND wall", true, []⟩ = false := by
  have h := (meshFilter_keeps_iff [] ["ground"] ⟨"The GROUND wall", true, []⟩).2.2.1
  exact h (by decide)

/-- C3: for every candidate triangle whose midpoint lies within twice the
radius of the local tentative position, the visit of checkSimpleCollision
replaces the in-flight velocity by the velocity minus 1.1 times its component
along the transformed normalized triangle normal and sets collided; a
triangle farther than that leaves the state unchanged; for a unit normal the
updated velocity component along the normal is exactly minus one tenth of the
old one (approximately zero via the 1.1 over-correction); and in the concrete
scenario of a velocity straight into a wall of normal (-1, 0, 0) the returned
velocity is (-1/10, 0, 0) with collided true. -/
theorem simpleStep_removes_normal_component (M : Mat4) (radius : ℚ)
    (localPos vel : Vec3) (flag : Bool) (tri : ExtendedTriangle) :
    (sqrtLt ((localPos.sub tri.getMidpoint).lengthSq) (radius * 2) = true →
      simpleStep M radius localPos (vel, flag) tri =
        (vel.addScaledVector ((tri.getNormal.applyMatrix4 M).normalize)
          (-(vel.dot ((tri.getNormal.applyMatrix4 M).normalize)) * (11/10)), true)) ∧
    (sqrtLt ((localPos.sub tri.getMidpoint).lengthSq) (radius * 2) = false →
      simpleStep M radius localPos (vel, flag) tri = (vel, flag)) ∧
    (∀ n : Vec3, n.lengthSq = 1 →
      (vel.addScaledVector n (-(vel.dot n) * (11/10))).dot n = -(1/10) * vel.dot n) ∧
    (checkSimpleCollision ⟨0, 0, 0⟩ ⟨1, 0, 0⟩ (some simpleWallCollider) 1 =
      { position := ⟨-1/10, 0, 0⟩, velocity := ⟨-1/10, 0, 0⟩, collided := true }) := by
  refine ⟨fun h => ?_, fun h => ?_, fun n hn => ?_, ?_⟩
  · simp [simpleStep, h]
  · simp [simpleStep, h]
  · obtain ⟨nx, ny, nz⟩ := n
    obtain ⟨vx, vy, vz⟩ := vel
    simp only [Vec3.addScaledVector, Vec3.dot, Vec3.lengthSq] at hn ⊢
    linear_combination (-(11/10) * (vx * nx + vy * ny + vz * nz)) * hn
  · norm_num [checkSimpleCollision, simpleWallCollider, simpleWallTri,
      shapecast, simpleStep, sqrtLt, ExtendedTriangle.getNormal, ExtendedTriangle.getMidpoint,
      Box3.setFromCenterAndSize, Box3.intersectsBox,
      Mat4.invert_identity, Vec3.applyMatrix4_identity, Vec3.add, Vec3.sub, Vec3.dot,
      Vec3.addScaledVector, Vec3.multiplyScalar, Vec3.normalize, Vec3.lengthSq, Vec3.cross,
      abs_of_nonneg, abs_of_nonpos, sqrt_one, sqrt_sixteen]

/-- Witness for C3 at a concrete input: the visit of the x = 2 wall triangle
with unit velocity into it flips the velocity to (-1/10, 0, 0) and records
the collision. -/
theorem simpleStep_removes_normal_component_witness :
    simpleStep Mat4.identity 1 ⟨1, 0, 0⟩ (⟨1, 0, 0⟩, false) simpleWallTri =
      (⟨-1/10, 0, 0⟩, true) := by
  have h := (simpleStep_removes_normal_component Mat4.identity 1 ⟨1, 0, 0⟩ ⟨1, 0, 0⟩
    false simpleWallTri).1
  have hc : sqrtLt ((Vec3.sub ⟨1, 0, 0⟩ simpleWallTri.getMidpoint).lengthSq) (1 * 2) = true := by
    norm_num [simpleWallTri, ExtendedTriangle.getMidpoint, Vec3.sub, Vec3.add,
      Vec3.multiplyScalar, Vec3.lengthSq, sqrtLt]
  rw [h hc]
  norm_num [simpleWallTri, ExtendedTriangle.getNormal, Vec3.cross, Vec3.sub, Vec3.lengthSq,
    Vec3.applyMatrix4_identity, Vec3.normalize, Vec3.multiplyScalar, Vec3.dot,
    Vec3.addScaledVector, sqrt_sixteen, sqrt_one]

/-- C4 counterexample: in the corridor of two facing walls at x = 0 and
x = 6/5 (width below twice the radius 4/5), with pushOutMultiplier 1, the
call at desired position x = 3/5 collides and is corrected to x = 2/5, and
re-running checkCollision with that corrected position as both current and
desired position still reports a collision: the sequential single-pass
push-out leaves residual penetration of the first wall. -/
theorem checkCollision_recheck_counterexample :
    (checkCollision ⟨3/5, 0, 0⟩ ⟨3/5, 0, 0⟩ (some corridorCollider) ⟨4/5, 1, 1⟩).collided = true ∧
    (checkCollision ⟨3/5, 0, 0⟩ ⟨3/5, 0, 0⟩ (some corridorCollider) ⟨4/5, 1, 1⟩).position =
      ⟨2/5, 0, 0⟩ ∧
    (checkCollision ⟨2/5, 0, 0⟩ ⟨2/5, 0, 0⟩ (some corridorCollider) ⟨4/5, 1, 1⟩).collided =
      true := by
  have h1 : checkCollision ⟨3/5, 0, 0⟩ ⟨3/5, 0, 0⟩ (some corridorCollider) ⟨4/5, 1, 1⟩ =
      { position := ⟨2/5, 0, 0⟩, collided := true } := by
    norm_num [checkCollision, corridorCollider, wallCollider, wallTriData, wallTriAt,
      capsuleSegmentAt, capsuleBox, shapecast, capsuleStep, planeClosestX,
      Mat4.invert_identity, Vec3.applyMatrix4_identity, Vec3.add, Vec3.sub,
      Vec3.addScaledVector, Vec3.multiplyScalar, Vec3.normalize, Vec3.lengthSq,
      Vec3.minV, Vec3.maxV, Vec3.addScalar, Box3.intersectsBox,
      abs_of_nonneg, abs_of_nonpos, sqrt_nine_over_25, sqrt_four_over_25]
  have h2 : (checkCollision ⟨2/5, 0, 0⟩ ⟨2/5, 0, 0⟩ (some corridorCollider)
      ⟨4/5, 1, 1⟩).collided = true := by
    norm_num [checkCollision, corridorCollider, wallCollider, wallTriData, wallTriAt,
      capsuleSegmentAt, capsuleBox, shapecast, capsuleStep, planeClosestX,
      Mat4.invert_identity, Vec3.applyMatrix4_identity, Vec3.add, Vec3.sub,
      Vec3.addScaledVector, Vec3.multiplyScalar, Vec3.normalize, Vec3.lengthSq,
      Vec3.minV, Vec3.maxV, Vec3.addScalar, Box3.intersectsBox,
      abs_of_nonneg, abs_of_nonpos, sqrt_nine_over_25, sqrt_four_over_25]
  exact ⟨by rw [h1], by rw [h1], h2⟩

/-- Visiting a plane wall from a vertical segment at least the radius away
leaves the capsule state unchanged. -/
theorem capsuleStep_wall_far (x0 r m : ℚ) (seg : Line3) (f : Bool)
    (hx : seg.start.x = seg.endP.x) (hfar : r ≤ |seg.start.x - x0|) :
    capsuleStep r m (seg, f) (wallTriAt x0) = (seg, f) := by
  obtain ⟨⟨sx, sy, sz⟩, ⟨ex, ey, ez⟩⟩ := seg
  dsimp only at hx hfar
  subst hx
  have h1 : ¬((sx - x0) * (sx - x0) < 0) := not_lt.2 (mul_self_nonneg _)
  have h3 : ¬(|sx - x0| < r) := not_lt.2 hfar
  simp [capsuleStep, wallTriAt, planeClosestX, h1, h3]

/-- Visiting a plane wall from a vertical segment strictly inside the radius
pushes both endpoints along the horizontal unit direction away from the wall
by depth times the multiplier. -/
theorem capsuleStep_wall_near (x0 r m : ℚ) (seg : Line3) (f : Bool)
    (hx : seg.start.x = seg.endP.x) (hne : seg.start.x ≠ x0)
    (hnear : |seg.start.x - x0| < r) :
    capsuleStep r m (seg, f) (wallTriAt x0) =
      (⟨⟨seg.start.x + ((seg.start.x - x0) / |seg.start.x - x0|) *
            ((r - |seg.start.x - x0|) * m), seg.start.y, seg.start.z⟩,
        ⟨seg.start.x + ((seg.start.x - x0) / |seg.start.x - x0|) *
            ((r - |seg.start.x - x0|) * m), seg.endP.y, seg.endP.z⟩⟩, true) := by
  obtain ⟨⟨sx, sy, sz⟩, ⟨ex, ey, ez⟩⟩ := seg
  dsimp only at hx hne hnear ⊢
  subst hx
  have hd : sx - x0 ≠ 0 := sub_ne_zero.2 hne
  have h1 : ¬((sx - x0) * (sx - x0) < 0) := not_lt.2 (mul_self_nonneg _)
  simp [capsuleStep, wallTriAt, planeClosestX, h1, hnear, hd, Vec3.sub, Vec3.normalize,
    Vec3.lengthSq, Vec3.multiplyScalar, Vec3.addScaledVector, Rat.sqrt_eq, abs_eq_zero,
    mul_one_div, div_eq_mul_inv]

/-- After a push-out with multiplier at least 1 from strictly inside the
radius of a plane wall, the pushed coordinate sits at least the radius away
from the wall. -/
theorem pushed_far (d r m : ℚ) (hd : d ≠ 0) (hr : 0 < r) (hm : 1 ≤ m)
    (hlt : |d| < r) : r ≤ |d + d / |d| * ((r - |d|) * m)| := by
  rcases lt_or_gt_of_ne hd with hneg | hpos
  · rw [abs_of_neg hneg] at hlt ⊢
    rw [div_neg, div_self hd]
    have h1 : 0 ≤ r + d := by linarith
    have h2 : (r + d) * 1 ≤ (r + d) * m := mul_le_mul_of_nonneg_left hm h1
    have h3 : d + -1 * ((r - -d) * m) ≤ -r := by linarith
    rw [abs_of_nonpos (by linarith : d + -1 * ((r - -d) * m) ≤ 0)]
    linarith
  · rw [abs_of_pos hpos] at hlt ⊢
    rw [div_self hd]
    have h1 : 0 ≤ r - d := by linarith
    have h2 : (r - d) * 1 ≤ (r - d) * m := mul_le_mul_of_nonneg_left hm h1
    have h4 : 0 ≤ (r - d) * m := by nlinarith
    rw [abs_of_nonneg (by linarith : 0 ≤ d + 1 * ((r - d) * m))]
    linarith

/-- Closed-form evaluation of checkCollision on a single plane wall with
identity world transform, at a desired position off the wall plane: either
the broad phase misses and nothing happens, or the penetration test on the
horizontal distance decides between the pushed result and the identity
result. -/
theorem checkCollision_wall_eval (x0 : ℚ) (cur des : Vec3)
    (s : KartColliderSettings) (hne : des.x ≠ x0) :
    checkCollision cur des (some (wallCollider x0)) s =
      (if (wallTriData x0).bounds.intersectsBox
          (capsuleBox (capsuleSegmentAt des s Mat4.identity) s.radius) = true then
        (if |des.x - x0| < s.radius then
          { position := ⟨des.x + (des.x - x0) / |des.x - x0| *
              ((s.radius - |des.x - x0|) * s.pushOutMultiplier), des.y, des.z⟩,
            collided := true }
        else { position := des, collided := false })
      else { position := des, collided := false }) := by
  have hseg : capsuleSegmentAt des s Mat4.identity =
      ⟨⟨des.x, s.radius + des.y, des.z⟩, ⟨des.x, s.height + des.y, des.z⟩⟩ := by
    simp [capsuleSegmentAt, Vec3.add, Vec3.applyMatrix4_identity]
  by_cases hb : ((wallTriData x0).bounds.intersectsBox
      (capsuleBox (capsuleSegmentAt des s Mat4.identity) s.radius)) = true
  · rw [if_pos hb]
    by_cases hlt : |des.x - x0| < s.radius
    · rw [if_pos hlt]
      have hstep := capsuleStep_wall_near x0 s.radius s.pushOutMultiplier
        (capsuleSegmentAt des s Mat4.identity) false
        (by rw [hseg]) (by rw [hseg]; exact hne) (by rw [hseg]; exact hlt)
      have hout : shapecast [wallTriData x0]
          (capsuleBox (capsuleSegmentAt des s Mat4.identity) s.radius)
          (capsuleStep s.radius s.pushOutMultiplier)
          (capsuleSegmentAt des s Mat4.identity, false) =
          capsuleStep s.radius s.pushOutMultiplier
            (capsuleSegmentAt des s Mat4.identity, false) (wallTriAt x0) := by
        simp only [shapecast, List.foldl_cons, List.foldl_nil]
        rw [if_pos hb]
        rfl
      simp only [checkCollision, wallCollider, Mat4.invert_identity]
      rw [hout, hstep]
      simp [hseg, Vec3.applyMatrix4_identity]
    · rw [if_neg hlt]
      have hstep := capsuleStep_wall_far x0 s.radius s.pushOutMultiplier
        (capsuleSegmentAt des s Mat4.identity) false
        (by rw [hseg]) (by rw [hseg]; exact not_lt.1 hlt)
      have hout : shapecast [wallTriData x0]
          (capsuleBox (capsuleSegmentAt des s Mat4.identity) s.radius)
          (capsuleStep s.radius s.pushOutMultiplier)
          (capsuleSegmentAt des s Mat4.identity, false) =
          (capsuleSegmentAt des s Mat4.identity, false) := by
        simp only [shapecast, List.foldl_cons, List.foldl_nil]
        rw [if_pos hb]
        exact hstep
      simp only [checkCollision, wallCollider, Mat4.invert_identity]
      rw [hout]
      simp
  · rw [if_neg hb]
    have hout : shapecast [wallTriData x0]
        (capsuleBox (capsuleSegmentAt des s Mat4.identity) s.radius)
        (capsuleStep s.radius s.pushOutMultiplier)
        (capsuleSegmentAt des s Mat4.identity, false) =
        (capsuleSegmentAt des s Mat4.identity, false) := by
      simp only [shapecast, List.foldl_cons, List.foldl_nil]
      rw [if_neg hb]
    simp only [checkCollision, wallCollider, Mat4.invert_identity]
    rw [hout]
    simp

/-- C4 as amended: for a collider made of one plane wall (exact plane
closest-point geometry, identity world transform), settings with positive
radius and pushOutMultiplier at least 1, and a desired position off the wall
plane, re-running checkCollision with the corrected position as both current
and desired position reports no collision. The general claim over all
colliders fails: with several triangles the sequential single-pass push-out
can leave residual penetration, see the counterexample. -/
theorem checkCollision_single_wall_no_recollide (x0 : ℚ) (cur des : Vec3)
    (s : KartColliderSettings) (hr : 0 < s.radius) (hm : 1 ≤ s.pushOutMultiplier)
    (hx : des.x ≠ x0) :
    (checkCollision (checkCollision cur des (some (wallCollider x0)) s).position
      (checkCollision cur des (some (wallCollider x0)) s).position
      (some (wallCollider x0)) s).collided = false := by
  rw [checkCollision_wall_eval x0 cur des s hx]
  by_cases hb : ((wallTriData x0).bounds.intersectsBox
      (capsuleBox (capsuleSegmentAt des s Mat4.identity) s.radius)) = true
  · rw [if_pos hb]
    by_cases hlt : |des.x - x0| < s.radius
    · rw [if_pos hlt]
      have hfar : s.radius ≤
          |des.x + (des.x - x0) / |des.x - x0| *
            ((s.radius - |des.x - x0|) * s.pushOutMultiplier) - x0| := by
        have h := pushed_far (des.x - x0) s.radius s.pushOutMultiplier
          (sub_ne_zero.2 hx) hr hm hlt
        have heq : des.x + (des.x - x0) / |des.x - x0| *
            ((s.radius - |des.x - x0|) * s.pushOutMultiplier) - x0 =
            des.x - x0 + (des.x - x0) / |des.x - x0| *
              ((s.radius - |des.x - x0|) * s.pushOutMultiplier) := by ring
        rw [heq]
        exact h
      have hXne : (des.x + (des.x - x0) / |des.x - x0| *
          ((s.radius - |des.x - x0|) * s.pushOutMultiplier)) ≠ x0 := by
        intro hEq
        rw [hEq, sub_self, abs_zero] at hfar
        linarith
      rw [checkCollision_wall_eval x0 _ _ s hXne]
      by_cases hb2 : ((wallTriData x0).bounds.intersectsBox
          (capsuleBox (capsuleSegmentAt
            (⟨des.x + (des.x - x0) / |des.x - x0| *
              ((s.radius - |des.x - x0|) * s.pushOutMultiplier), des.y, des.z⟩ : Vec3)
            s Mat4.identity) s.radius)) = true
      · rw [if_pos hb2, if_neg (not_lt.2 hfar)]
      · rw [if_neg hb2]
    · rw [if_neg hlt]
      rw [checkCollision_wall_eval x0 _ _ s hx]
      rw [if_pos hb, if_neg hlt]
  · rw [if_neg hb]
    rw [checkCollision_wall_eval x0 _ _ s hx]
    rw [if_neg hb]

/-- Witness for the amended C4 at a concrete input: one wall at x = 0,
default-style settings (radius 4/5, multiplier 1), desired x = 3/5; the
corrected position does not re-collide. -/
theorem checkCollision_single_wall_no_recollide_witness :
    (checkCollision
      (checkCollision ⟨3/5, 0, 0⟩ ⟨3/5, 0, 0⟩ (some (wallCollider 0)) ⟨4/5, 1, 1⟩).position
      (checkCollision ⟨3/5, 0, 0⟩ ⟨3/5, 0, 0⟩ (some (wallCollider 0)) ⟨4/5, 1, 1⟩).position
      (some (wallCollider 0)) ⟨4/5, 1, 1⟩).collided = false :=
  checkCollision_single_wall_no_recollide 0 ⟨3/5, 0, 0⟩ ⟨3/5, 0, 0⟩ ⟨4/5, 1, 1⟩
    (by norm_num) (by norm_num) (by norm_num)
